import Mathlib

/-!
Verification of the multi-jurisdiction property-tax scrape-and-normalize
pipeline (scripts/lookup_providence_tax.py, scripts/lookup_vermont_tax.py,
scripts/lookup_scc_tax.py, scripts/sync_all_taxes.py,
scripts/nest-auto-refresh-token.py).

The Python sources are shallowly embedded: each text parser becomes a pure
Lean function over the page text, the regular expressions are hand-compiled
to explicit scanners, monetary amounts are exact rationals (kept as an
explicit numerator/denominator pair so that everything stays
kernel-computable), and the effectful boundaries (subprocess execution,
HTTP delivery, printing) are modelled by explicit outcome values and
output-line lists.
-/

namespace PropTax

/-- Exact rational amount: the value the Python code holds as a float.
Every amount in the pipeline is read from a decimal string, so the exact
decimal value is the faithful model. The pair is not normalized; the
denominator is positive by type, and value-level statements go through
Money.toRat. -/
structure Money where
  num : Int
  den : ℕ+
deriving DecidableEq

/-- Amount given by integer digits, fractional digits and the fractional
length: ip.fp with k fractional places. -/
def Money.ofDigits (ipVal fpVal k : Nat) : Money :=
  ⟨ipVal * 10 ^ k + fpVal, ⟨10 ^ k, pow_pos (by norm_num) k⟩⟩

/-- Exact addition. -/
def Money.add (a b : Money) : Money :=
  ⟨a.num * b.den + b.num * a.den, a.den * b.den⟩

/-- Exact division by a positive integer constant (the Vermont half split). -/
def Money.divN (a : Money) (n : ℕ+) : Money := ⟨a.num, a.den * n⟩

/-- Exact multiplication by an integer constant (the Providence times four). -/
def Money.mulN (a : Money) (k : Nat) : Money := ⟨a.num * k, a.den⟩

/-- Negation (a leading minus sign in float()). -/
def Money.neg (a : Money) : Money := ⟨-a.num, a.den⟩

/-- Value-level zero test: Python float truthiness (0.0 is falsy). -/
def Money.isZero (a : Money) : Bool := a.num == 0

/-- The rational value of an amount. -/
def Money.toRat (a : Money) : ℚ := (a.num : ℚ) / ((a.den : ℕ) : ℚ)

/-- Python dict truthiness of an optional float value: present and nonzero. -/
def moneyTruthy (o : Option Money) : Bool :=
  match o with
  | some v => !v.isZero
  | none => false

/-- Sum of the rational values of a list of amounts. -/
def sumRat (l : List Money) : ℚ := (l.map Money.toRat).sum

/-- Characters of the Python regex class \s. -/
def pySpace (c : Char) : Bool :=
  c = ' ' || c = '\t' || c = '\n' || c = '\r' || c = '\x0b' || c = '\x0c'

/-- Python regex word character, as used by the \b boundary. -/
def pyWord (c : Char) : Bool := c.isAlphanum || c = '_'

/-- Separator class [:\s] used by several NEMRC patterns. -/
def sepCl (c : Char) : Bool := c = ':' || pySpace c

/-- Characters of the money class [\d,]. -/
def digitComma (c : Char) : Bool := c.isDigit || c = ','

/-- Consume an exact literal; return the remaining input. -/
def lit : List Char → List Char → Option (List Char)
  | [], cs => some cs
  | _ :: _, [] => none
  | l :: ls, c :: cs => if c = l then lit ls cs else none

/-- Consume an exact literal, ignoring case (re.IGNORECASE). -/
def litCI : List Char → List Char → Option (List Char)
  | [], cs => some cs
  | _ :: _, [] => none
  | l :: ls, c :: cs => if c.toLower = l.toLower then litCI ls cs else none

/-- Consume exactly n digits; return them and the rest. -/
def digitsN : Nat → List Char → Option (List Char × List Char)
  | 0, cs => some ([], cs)
  | _ + 1, [] => none
  | n + 1, c :: cs =>
    if c.isDigit then (digitsN n cs).map (fun p => (c :: p.1, p.2)) else none

/-- Consume a maximal nonempty run of characters of the class p.
For every pattern below the class of the following atom is disjoint from p,
so the greedy run with backtracking of the source regexes degenerates to
the maximal run. -/
def run1 (p : Char → Bool) (cs : List Char) : Option (List Char × List Char) :=
  let r := cs.takeWhile p
  if r.isEmpty then none else some (r, cs.dropWhile p)

/-- Leftmost-position search (re.search): try the pattern at every suffix. -/
def searchFirst {α : Type} (m : List Char → Option α) : List Char → Option α
  | [] => m []
  | c :: cs =>
    match m (c :: cs) with
    | some a => some a
    | none => searchFirst m cs

/-- Leftmost-position search for a pattern that inspects the preceding
character (needed for the \b boundary). -/
def searchBound {α : Type} (m : Option Char → List Char → Option α) :
    Option Char → List Char → Option α
  | prev, [] => m prev []
  | prev, c :: cs =>
    match m prev (c :: cs) with
    | some a => some a
    | none => searchBound m (some c) cs

/-- Natural value of a digit string. -/
def digitsVal (ds : List Char) : Nat :=
  ds.foldl (fun a c => a * 10 + (c.toNat - 48)) 0

/-- Exact value of integer digits and fractional digits. -/
def moneyVal (ip fp : List Char) : Money :=
  Money.ofDigits (digitsVal ip) (digitsVal fp) fp.length

/-- Python float() applied to a regex money capture after the source strips
commas. Captures only ever contain digits, commas and at most one dot;
float() raises ValueError exactly when no digit is present. -/
def pyFloatCapture (cap : List Char) : Option Money :=
  let cs := cap.filter (fun c => c ≠ ',')
  if cs.any Char.isDigit then
    let ip := cs.takeWhile Char.isDigit
    let rest := cs.dropWhile Char.isDigit
    let fp :=
      match rest with
      | '.' :: t => t.takeWhile Char.isDigit
      | _ => []
    some (moneyVal ip fp)
  else none

/-- Unsigned decimal literal covering the whole input. -/
def decimalChars (cs : List Char) : Option Money :=
  let ip := cs.takeWhile Char.isDigit
  let rest := cs.dropWhile Char.isDigit
  match rest with
  | [] => if ip.isEmpty then none else some (moneyVal ip [])
  | '.' :: t =>
    let fp := t.takeWhile Char.isDigit
    let rest2 := t.dropWhile Char.isDigit
    if rest2.isEmpty && !(ip.isEmpty && fp.isEmpty) then some (moneyVal ip fp)
    else none
  | _ => none

/-- Python float() on a free-form amount cell (used by the Santa Clara
parser after it removes dollar signs and commas). Plain decimal literals
with an optional sign; exotic float syntax (exponents, inf, nan) is
treated as a parse failure. -/
def pyFloatStr (s : String) : Option Money :=
  let cs := ((s.data.dropWhile pySpace).reverse.dropWhile pySpace).reverse
  match cs with
  | '-' :: t => (decimalChars t).map Money.neg
  | '+' :: t => decimalChars t
  | _ => decimalChars cs

/-- Hand-compiled (\d{3}-\d{4}-\d{4}): the Providence parcel-number pattern. -/
def parcelProvAt (cs : List Char) : Option String := do
  let (d1, cs) ← digitsN 3 cs
  let cs ← lit ['-'] cs
  let (d2, cs) ← digitsN 4 cs
  let cs ← lit ['-'] cs
  let (d3, _) ← digitsN 4 cs
  some (String.mk (d1 ++ '-' :: d2 ++ '-' :: d3))

/-- Hand-compiled Due\s+(\d{2}/\d{2}/\d{4}):\s*\$\s*([\d,]+\.\d{2}).
Returns the due date capture and the float() value of the amount capture
with commas stripped (always defined for captures of this shape). -/
def dueAt (cs : List Char) : Option (String × Money) := do
  let cs ← lit "Due".data cs
  let (_, cs) ← run1 pySpace cs
  let (m, cs) ← digitsN 2 cs
  let cs ← lit ['/'] cs
  let (d, cs) ← digitsN 2 cs
  let cs ← lit ['/'] cs
  let (y, cs) ← digitsN 4 cs
  let cs ← lit [':'] cs
  let cs := cs.dropWhile pySpace
  let cs ← lit ['$'] cs
  let cs := cs.dropWhile pySpace
  let (r, cs) ← run1 digitComma cs
  let cs ← lit ['.'] cs
  let (f, _) ← digitsN 2 cs
  some (String.mk (m ++ '/' :: d ++ '/' :: y), moneyVal (r.filter Char.isDigit) f)

/-- Hand-compiled Full Balance:\s*\$\s*([\d,]+\.\d{2}). -/
def fullBalanceAt (cs : List Char) : Option Money := do
  let cs ← lit "Full Balance:".data cs
  let cs := cs.dropWhile pySpace
  let cs ← lit ['$'] cs
  let cs := cs.dropWhile pySpace
  let (r, cs) ← run1 digitComma cs
  let cs ← lit ['.'] cs
  let (f, _) ← digitsN 2 cs
  some (moneyVal (r.filter Char.isDigit) f)

/-- TAX occurring later on the same line (the dot of .*TAX does not match a
newline, so the whole tail of the match stays on one line). -/
def lineHasTAX : List Char → Bool
  | [] => false
  | c :: cs =>
    if c = '\n' then false
    else if "TAX".data.isPrefixOf (c :: cs) then true
    else lineHasTAX cs

/-- Hand-compiled \b(202[4-9])\b.*TAX at one position, given the preceding
character for the left word boundary. -/
def yearTaxAt (prev : Option Char) (cs : List Char) : Option Nat :=
  if (prev.map pyWord).getD false then none
  else
    match lit "202".data cs with
    | none => none
    | some cs2 =>
      match cs2 with
      | d :: r0 :: rest =>
        if ('4' ≤ d && d ≤ '9') && !pyWord r0 && lineHasTAX (r0 :: rest) then
          some (2020 + (d.toNat - 48))
        else none
      | _ => none

/-- One synthesized installment row (the number/amount/due_date/status
dicts built by the Vermont and Providence parsers). -/
structure Installment where
  number : Nat
  amount : Money
  due_date : String
  status : String
deriving DecidableEq

/-- Result dictionary of parse_providence_results. Keys the source may set
are optional fields. full_balance is a key no code path ever writes (the
parsed balance is stored under remaining_balance), yet the success check
reads it. The full_address extraction is elided: it is a pure regex
search writing only that key, on which no verified property depends;
scraped_at (wall clock) is likewise elided. currentYear stands for
datetime.now().year. -/
structure ProvResult where
  success : Bool := false
  address : String
  municipality : String := "Providence, RI"
  parcel_number : Option String := none
  owner : Option String := none
  next_due_date : Option String := none
  next_due_amount : Option Money := none
  remaining_balance : Option Money := none
  full_balance : Option Money := none
  tax_year : Option Nat := none
  quarterly_amount : Option Money := none
  annual_tax : Option Money := none
  installments : List Installment := []
  error : Option String := none
  note : Option String := none
deriving DecidableEq

/-- Hand-compiled SPAN[:\s]+(\d{3}-\d{3}-\d{5}). -/
def spanAt (cs : List Char) : Option String := do
  let cs ← lit "SPAN".data cs
  let (_, cs) ← run1 sepCl cs
  let (d1, cs) ← digitsN 3 cs
  let cs ← lit ['-'] cs
  let (d2, cs) ← digitsN 3 cs
  let cs ← lit ['-'] cs
  let (d3, _) ← digitsN 5 cs
  some (String.mk (d1 ++ '-' :: d2 ++ '-' :: d3))

/-- Character class [A-Z0-9\-] under re.IGNORECASE. -/
def parcelIdCl (c : Char) : Bool := c.isAlpha || c.isDigit || c = '-'

/-- Hand-compiled Parcel ID[:\s]+([A-Z0-9\-]+) with re.IGNORECASE. -/
def parcelIdAt (cs : List Char) : Option String := do
  let cs ← litCI "Parcel ID".data cs
  let (_, cs) ← run1 sepCl cs
  let (r, _) ← run1 parcelIdCl cs
  some (String.mk r)

/-- Common tail [:\s]+\$?([\d,]+) of the assessed-value patterns. -/
def sepMoneyTail (cs : List Char) : Option (List Char) := do
  let (_, cs) ← run1 sepCl cs
  let cs2 :=
    match cs with
    | '$' :: t => t
    | _ => cs
  let (r, _) ← run1 digitComma cs2
  some r

/-- Hand-compiled Land[:\s]+\$?([\d,]+). -/
def landAt (cs : List Char) : Option (List Char) :=
  (lit "Land".data cs).bind sepMoneyTail

/-- Hand-compiled Total[:\s]+\$?([\d,]+). -/
def totalAt (cs : List Char) : Option (List Char) :=
  (lit "Total".data cs).bind sepMoneyTail

/-- Hand-compiled Building[s]?[:\s]+\$?([\d,]+): the optional s is tried
greedily and given back when the tail fails. -/
def buildingAt (cs : List Char) : Option (List Char) :=
  match lit "Building".data cs with
  | none => none
  | some cs2 =>
    match cs2 with
    | 's' :: t =>
      match sepMoneyTail t with
      | some r => some r
      | none => sepMoneyTail cs2
    | _ => sepMoneyTail cs2

/-- Hand-compiled Tax[:\s]+\$?([\d,]+\.?\d*). -/
def taxAt (cs : List Char) : Option (List Char) := do
  let cs ← lit "Tax".data cs
  let (_, cs) ← run1 sepCl cs
  let cs2 :=
    match cs with
    | '$' :: t => t
    | _ => cs
  let (r, cs3) ← run1 digitComma cs2
  match cs3 with
  | '.' :: t => some (r ++ '.' :: t.takeWhile Char.isDigit)
  | _ => some r

/-- Result dictionary of parse_nemrc_property (scripts/lookup_vermont_tax.py).
The owner and full_address extraction is elided: no verified property
depends on it and it writes no other key; scraped_at is likewise elided. -/
structure NemrcResult where
  success : Bool := false
  address : String
  municipality : String := "Dummerston, VT"
  span_number : Option String := none
  parcel_id : Option String := none
  land_value : Option Money := none
  building_value : Option Money := none
  total_assessed_value : Option Money := none
  annual_tax : Option Money := none
  installments : List Installment := []
  note : Option String := none
  error : Option String := none
deriving DecidableEq

deriving instance DecidableEq for Except

/-- The float() step applied to an optional regex capture. A capture with
no digit makes float() raise ValueError, which propagates out of the parser
(the caller turns it into a failed ScrapeResult). -/
def capToMoney (cap : Option (List Char)) : Except String (Option Money) :=
  match cap with
  | none => Except.ok none
  | some r =>
    match pyFloatCapture r with
    | some q => Except.ok (some q)
    | none => Except.error "ValueError: could not convert string to float"

/-- Shallow embedding of parse_nemrc_property (scripts/lookup_vermont_tax.py).
The searches cannot fail; the only exception escape is ValueError from
float(), raised in the source order land, building, total, tax. Dict
truthiness of total_assessed_value in the success check is value truthiness
(0.0 is falsy). -/
def parse_nemrc_property (text searchAddress : String) : Except String NemrcResult :=
  let cs := text.data
  let span := searchFirst spanAt cs
  let pid := searchFirst parcelIdAt cs
  do
    let land ← capToMoney (searchFirst landAt cs)
    let bldg ← capToMoney (searchFirst buildingAt cs)
    let total ← capToMoney (searchFirst totalAt cs)
    let tax ← capToMoney (searchFirst taxAt cs)
    let insts :=
      match tax with
      | some t =>
        [⟨1, t.divN 2, "08/15", "unknown"⟩, ⟨2, t.divN 2, "02/15", "unknown"⟩]
      | none => []
    let ok := span.isSome || pid.isSome || moneyTruthy total
    Except.ok
      { address := searchAddress
        span_number := span
        parcel_id := pid
        land_value := land
        building_value := bldg
        total_assessed_value := total
        annual_tax := tax
        installments := insts
        success := ok
        note :=
          if ok then
            some "NEMRC shows assessed values only. Tax amounts require town tax rate."
          else none
        error :=
          if ok then none
          else some "Could not parse property information from results" }

/-- Canonical callback payload built by the Vermont post_to_callback
(scripts/lookup_vermont_tax.py). property_id (always None), address and
owner are elided; raw_data carries the result itself plus the town tag.
The source stamps tax_year with datetime.now().year unconditionally. -/
structure VtPayload where
  provider : String := "vermont_nemrc"
  parcel_number : Option String
  tax_year : Nat
  assessed_value : Option Money
  annual_tax : Option Money
  success : Bool
  error : Option String
  town : String
deriving DecidableEq

/-- Payload construction of the Vermont post_to_callback. -/
def vermontPayload (data : NemrcResult) (town : String) (currentYear : Nat) :
    VtPayload :=
  { parcel_number := data.span_number
    tax_year := currentYear
    assessed_value := data.total_assessed_value
    annual_tax := data.annual_tax
    success := data.success
    error := data.error
    town := town }

/-- Python str.strip() on a line (ASCII whitespace). -/
def pyStrip (s : String) : String :=
  String.mk (((s.data.dropWhile pySpace).reverse.dropWhile pySpace).reverse)

/-- Python str.split on newline characters, over the character list. -/
def splitNlChars : List Char → List (List Char)
  | [] => [[]]
  | c :: cs =>
    let r := splitNlChars cs
    if c = '\n' then [] :: r
    else
      match r with
      | h :: t => (c :: h) :: t
      | [] => [[c]]

/-- Python text.split of a page text on newlines. -/
def pySplitNl (s : String) : List String := (splitNlChars s.data).map String.mk

/-- Python str.startswith. -/
def pyStartsWith (s t : String) : Bool := t.data.isPrefixOf s.data

/-- needle occurring as a contiguous substring of hay (Python in). -/
def containsSub (needle : String) (hay : List Char) : Bool :=
  match hay with
  | [] => needle.data.isPrefixOf []
  | _ :: t => needle.data.isPrefixOf hay || containsSub needle t

/-- s.replace applied for dollar signs and commas. -/
def stripDollarComma (s : String) : String :=
  String.mk (s.data.filter (fun c => c ≠ '$' && c ≠ ','))

/-- Python str.upper() (ASCII). -/
def pyUpper (s : String) : String := String.mk (s.data.map Char.toUpper)

/-- ASCII uppercase class [A-Z]. -/
def isUpperAZ (c : Char) : Bool := 'A' ≤ c && c ≤ 'Z'

/-- Character class [A-Z\s] of the owner-name capture. -/
def ownerCl (c : Char) : Bool := isUpperAZ c || pySpace c

/-- Tail \s+\d{3}-\d{4} checked after a candidate owner capture. -/
def ownerTail (rem : List Char) : Bool :=
  (do
    let (_, r1) ← run1 pySpace rem
    let (_, r2) ← digitsN 3 r1
    let r3 ← lit ['-'] r2
    let (_, _) ← digitsN 4 r3
    some ()).isSome

/-- Greedy backtracking over the capture length of ([A-Z][A-Z\s]+): the
longest split whose remainder still matches the tail wins. Only the
capture length backtracks — every earlier atom class of the owner
pattern is disjoint from its successor. -/
def ownerTryK (first : Char) (run rest0 : List Char) : Nat → Option (List Char)
  | 0 => none
  | k + 1 =>
    if ownerTail (run.drop (k + 1) ++ rest0) then some (first :: run.take (k + 1))
    else ownerTryK first run rest0 k

/-- Hand-compiled (\d{4})\s+\d+\s+([A-Z][A-Z\s]+)\s+\d{3}-\d{4}: the
primary owner pattern of parse_providence_results; yields the group-2
capture. -/
def ownerAt (cs : List Char) : Option (List Char) := do
  let (_, cs) ← digitsN 4 cs
  let (_, cs) ← run1 pySpace cs
  let (_, cs) ← run1 Char.isDigit cs
  let (_, cs) ← run1 pySpace cs
  match cs with
  | c :: cs2 =>
    if isUpperAZ c then
      ownerTryK c (cs2.takeWhile ownerCl) (cs2.dropWhile ownerCl)
        (cs2.takeWhile ownerCl).length
    else none
  | [] => none

/-- A line qualifying as an owner candidate in the fallback loop: it
contains SPALTER once uppercased, or it matches ^[A-Z\s]+$ and is longer
than five characters. -/
def ownerLineCond (line : String) : Bool :=
  containsSub "SPALTER" (pyUpper line).data ||
  (!line.data.isEmpty && line.data.all ownerCl && decide (5 < line.data.length))

/-- Any digit in a line (the any(c.isdigit() ...) checks of the loop). -/
def hasDigitStr (s : String) : Bool := s.data.any Char.isDigit

/-- The owner fallback loop of parse_providence_results
(scripts/lookup_providence_tax.py, else branch of the owner search): at
each qualifying line the previous line is checked for a digit (the
per-element filter makes this False outright at index 0); failing that,
lines[i+1] is read — Python evaluates the iterable of the generator
expression eagerly, so a qualifying final line whose predecessor holds
no digit raises IndexError (carried here as the str of the exception).
A qualifying line failing both checks does not stop the scan. -/
def provOwnerLoop (allLines : List String) : List String → Nat →
    Except String (Option String)
  | [], _ => Except.ok none
  | line :: rest, i =>
    if ownerLineCond line then
      let firstAny := if i = 0 then false else hasDigitStr (allLines.getD (i - 1) "")
      if firstAny then Except.ok (some (pyStrip line))
      else
        match rest with
        | [] => Except.error "list index out of range"
        | next :: _ =>
          if hasDigitStr next then Except.ok (some (pyStrip line))
          else provOwnerLoop allLines rest (i + 1)
    else provOwnerLoop allLines rest (i + 1)

/-- The stripped nonempty lines of the Providence page text. -/
def provLines (text : String) : List String :=
  ((pySplitNl text).map pyStrip).filter (fun l => l ≠ "")

/-- The owner extraction of parse_providence_results: the primary regex
capture (group 2, stripped) or, failing that, the fallback loop — the
only stage of the parser that can raise. -/
def provOwner (cs : List Char) (lines : List String) : Except String (Option String) :=
  match searchFirst ownerAt cs with
  | some cap => Except.ok (some (pyStrip (String.mk cap)))
  | none => provOwnerLoop lines lines 0

/-- The dictionary parse_providence_results assembles once the owner
stage has returned. Every other stage is a pure search, so assembling at
the end is observationally equal to the incremental dict of the source
(which the caller discards when the owner stage raises). Dictionary
truthiness is preserved: a parcel capture is a nonempty 13-character
string, so its truthiness is isSome; next_due_amount is truthy only when
nonzero. -/
def provAssemble (text searchAddress : String) (currentYear : Nat)
    (owner : Option String) : ProvResult :=
  let cs := text.data
  let parcel := searchFirst parcelProvAt cs
  let due := searchFirst dueAt cs
  let bal := searchFirst fullBalanceAt cs
  let taxYear := (searchBound yearTaxAt none cs).getD currentYear
  let base : ProvResult :=
    { address := searchAddress
      parcel_number := parcel
      owner := owner
      next_due_date := due.map Prod.fst
      next_due_amount := due.map Prod.snd
      remaining_balance := bal
      tax_year := some taxYear }
  let r :=
    match due with
    | some (_, q) =>
      if q.isZero then base
      else
        { base with
          quarterly_amount := some q
          annual_tax := some (q.mulN 4)
          installments :=
            [⟨1, q, "07/24/" ++ toString taxYear, "unknown"⟩,
             ⟨2, q, "10/24/" ++ toString taxYear, "unknown"⟩,
             ⟨3, q, "01/24/" ++ toString (taxYear + 1), "unknown"⟩,
             ⟨4, q, "04/24/" ++ toString (taxYear + 1), "unknown"⟩] }
    | none => base
  if r.parcel_number.isSome || r.full_balance.isSome then { r with success := true }
  else { r with error := some "Could not parse tax information from results" }

/-- Shallow embedding of parse_providence_results
(scripts/lookup_providence_tax.py): the one effectful stage — the owner
extraction, which may raise IndexError — followed by the pure assembly
of the result dictionary. -/
def parse_providence_results (text searchAddress : String) (currentYear : Nat) :
    Except String ProvResult :=
  (provOwner text.data (provLines text)).map (provAssemble text searchAddress currentYear)

/-- One installment block of the Santa Clara parser
(scripts/lookup_scc_tax.py, parse_tax_data). A fresh dict holds only the
number; the other keys are filled as their header lines are seen. -/
structure SccInst where
  number : Nat
  tax_year : Option String := none
  amount : Option Money := none
  additional_charges : Option Money := none
  balance_due : Option Money := none
  due_date : Option String := none
  status : Option String := none
  payment_date : Option String := none
deriving DecidableEq

/-- One tax-year group of the Santa Clara parser. -/
structure SccYear where
  tax_year : String
  installments : List SccInst
deriving DecidableEq

/-- Result dictionary of parse_tax_data; the error constructor dictionaries
of lookup_property_tax share the shape (success false, empty years).
scraped_at is elided. -/
structure SccResult where
  success : Bool := true
  parcel_number : String := "274-15-034"
  address : String := "125 DANA AV SAN JOSE"
  error : Option String := none
  tax_years : List SccYear
deriving DecidableEq

/-- Hand-compiled re.match of (\d{4}/\d{4}) Annual Tax Bill (anchored at
the start of the line, trailing text free). -/
def yearHeader (line : String) : Option String := do
  let (d1, cs) ← digitsN 4 line.data
  let cs ← lit ['/'] cs
  let (d2, cs) ← digitsN 4 cs
  let _ ← lit " Annual Tax Bill".data cs
  some (String.mk (d1 ++ '/' :: d2))

/-- Update of an optional amount key under try/except pass: a float()
failure leaves the previous value in place. -/
def tryFloatUpdate (old : Option Money) (cell : String) : Option Money :=
  match pyFloatStr (stripDollarComma cell) with
  | some v => some v
  | none => old

/-- Flush of a finished year group: append only when a year header was
seen and at least one installment was collected. -/
def sccFlush (curY : Option String) (insts : List SccInst) (acc : List SccYear) :
    List SccYear :=
  match curY with
  | some y => if insts.isEmpty then acc else acc ++ [⟨y, insts⟩]
  | none => acc

/-- Fresh installment dict for an Installment 1 or Installment 2 header. -/
def sccNewInst (line : String) (curY : Option String) : SccInst :=
  { number := if containsSub "Installment 1" line.data then 1 else 2
    tax_year := curY }

/-- The keyword lines of the installment-detail block. Each fires only
when a value cell follows (i + 1 < len(lines) in the source). -/
def sccIsKey (line : String) : Bool :=
  line = "Tax Amount" || line = "Additional Charges" || line = "Balance Due" ||
  line = "Pay By Date" || line = "Status" || line = "Last Payment Date"

/-- Effect of one keyword line on the installment dict under construction
and on the collected installments. Only called when sccIsKey holds; the
final arm is unreachable then. Last Payment Date closes the block: the
dict is appended when its amount is truthy, and a fresh dict with the next
number replaces it. -/
def sccApplyKey (ci : SccInst) (line next : String) (insts : List SccInst) :
    SccInst × List SccInst :=
  if line = "Tax Amount" then
    ({ ci with amount := tryFloatUpdate ci.amount next }, insts)
  else if line = "Additional Charges" then
    ({ ci with additional_charges := tryFloatUpdate ci.additional_charges next }, insts)
  else if line = "Balance Due" then
    ({ ci with balance_due := tryFloatUpdate ci.balance_due next }, insts)
  else if line = "Pay By Date" then
    ({ ci with due_date := some next }, insts)
  else if line = "Status" then
    let st := if pyUpper next = "PAID" then "paid" else "unpaid"
    ({ ci with status := some st }, insts)
  else if line = "Last Payment Date" then
    let ci2 := if next ≠ "N/A" then { ci with payment_date := some next } else ci
    let insts2 :=
      match ci2.amount with
      | some a => if a.isZero then insts else insts ++ [ci2]
      | none => insts
    ({ number := ci2.number + 1 }, insts2)
  else (ci, insts)

/-- The line scanner of parse_tax_data (scripts/lookup_scc_tax.py): a
state machine over the stripped nonempty lines carrying the current year
header, the installment dict under construction, the finished installments
of the current year, and the finished year groups. A keyword as the very
last line consumes nothing and the loop ends, which equals flushing
directly. -/
def sccLoop : List String → Option String → Option SccInst → List SccInst →
    List SccYear → List SccYear
  | [], curY, _, insts, acc => sccFlush curY insts acc
  | line :: rest, curY, curI, insts, acc =>
    match yearHeader line with
    | some y => sccLoop rest (some y) curI [] (sccFlush curY insts acc)
    | none =>
      if pyStartsWith line "Installment 1" || pyStartsWith line "Installment 2" then
        sccLoop rest curY (some (sccNewInst line curY)) insts acc
      else
        match curI with
        | none => sccLoop rest curY curI insts acc
        | some ci =>
          if sccIsKey line then
            match rest with
            | [] => sccFlush curY insts acc
            | next :: rest2 =>
              let p := sccApplyKey ci line next insts
              sccLoop rest2 curY (some p.1) p.2 acc
          else sccLoop rest curY curI insts acc

/-- Shallow embedding of parse_tax_data (scripts/lookup_scc_tax.py). The
result always carries success true; the lines are stripped and blank lines
dropped as in the source. -/
def parse_tax_data (text : String) : SccResult :=
  let lines := ((pySplitNl text).map pyStrip).filter (fun l => l ≠ "")
  { tax_years := sccLoop lines none none [] [] }

/-- One flattened callback installment of the Santa Clara post_to_callback. -/
structure CbInst where
  installment_number : Nat
  amount : Option Money
  due_date : Option String
  status : String
deriving DecidableEq

/-- Flattening step of the Santa Clara post_to_callback: the installments
of every parsed tax year, in year order. -/
def flattenInstallments (d : SccResult) : List CbInst :=
  (d.tax_years.map (fun y => y.installments.map (fun i =>
    (⟨i.number, i.amount, i.due_date, i.status.getD "unknown"⟩ : CbInst)))).flatten

/-- Python sum() over amounts (missing amount counts as 0). -/
def sumMoney (l : List Money) : Money := l.foldl Money.add ⟨0, 1⟩

/-- int() on the all-digit year prefix produced by the year-header capture. -/
def intDigits (s : String) : Nat := digitsVal s.data

/-- Python s.split('/')[0]: the text before the first slash. -/
def firstSlashField (s : String) : String :=
  String.mk (s.data.takeWhile (fun c => c ≠ '/'))

/-- Canonical callback payload built by the Santa Clara post_to_callback:
annual_tax is the sum of the amounts of only the first two flattened
installments. property_id (always None) and raw_data (the full result,
already modelled by data) are elided. currentYear stands for
datetime.now().year. -/
structure SccPayload where
  provider : String := "santa_clara_county"
  parcel_number : String := "274-15-034"
  address : String := "125 DANA AV SAN JOSE"
  tax_year : Nat
  annual_tax : Money
  installments : List CbInst
  success : Bool
  error : Option String
deriving DecidableEq

/-- Payload construction of the Santa Clara post_to_callback. -/
def scc_payload (data : SccResult) (currentYear : Nat) : SccPayload :=
  let insts := flattenInstallments data
  let annual := sumMoney ((insts.take 2).map (fun i => i.amount.getD ⟨0, 1⟩))
  { tax_year :=
      match data.tax_years with
      | [] => currentYear
      | y :: _ => intDigits (firstSlashField y.tax_year)
    annual_tax := annual
    installments := insts
    success := data.success
    error := data.error }

/-- Santa Clara page text with two annual tax bills, as the parser state
machine reads it: each year block holds two installments. -/
def sccTwoYearText : String :=
  "2024/2025 Annual Tax Bill\nInstallment 1\nTax Amount\n$100.00\nStatus\nPAID\nLast Payment Date\n12/01/2024\nInstallment 2\nTax Amount\n$100.00\nStatus\nPAID\nLast Payment Date\n04/01/2025\n2025/2026 Annual Tax Bill\nInstallment 1\nTax Amount\n$200.00\nStatus\nUNPAID\nLast Payment Date\nN/A\nInstallment 2\nTax Amount\n$200.00\nStatus\nUNPAID\nLast Payment Date\nN/A"

/-- Untyped result dictionary flowing back from run_scraper
(scripts/sync_all_taxes.py): the keys the orchestrator reads, each
optional because the dictionaries of the different branches carry
different keys. A parsed scraper JSON is abstracted to the same shape. -/
structure ScrapeDict where
  success : Option Bool := none
  dry_run : Option Bool := none
  error : Option String := none
  stdout : Option String := none
  stderr : Option String := none
  annual_tax : Option Money := none
  total_assessed_value : Option Money := none
deriving DecidableEq

/-- Behavior of one scraper subprocess, supplied as an oracle to the
orchestrator model: normal completion (return code, raw standard output
and error, and the value json.loads would produce on the JSON tail of
stdout, none when it would raise JSONDecodeError), a hit of the
120-second timeout, or another exception from subprocess.run. json.loads
itself is not modelled; the scan for the first JSON-opening line is. -/
inductive SubprocOutcome where
  | completed (rc : Int) (stdoutRaw : String) (stderrRaw : String)
      (parsed : Option ScrapeDict)
  | timedOut
  | raised (msg : String)
deriving DecidableEq

/-- The timeout failure dictionary of run_scraper. -/
def timeoutDict : ScrapeDict :=
  { success := some false, error := some "Script timed out after 120 seconds" }

/-- The JSON-extraction scan of run_scraper: stdout is stripped, split on
newlines, and searched for the first line whose stripped form opens a
JSON object. -/
def hasBraceLine (out : String) : Bool :=
  ((pySplitNl (pyStrip out)).map pyStrip).any (fun l => pyStartsWith l "\x7b")

/-- Result dictionary of run_scraper for one subprocess outcome (the
non-dry branches; this dictionary does not depend on the command line). -/
def subprocResult : SubprocOutcome → ScrapeDict
  | .timedOut => timeoutDict
  | .raised m => { success := some false, error := some m }
  | .completed rc out err parsed =>
    if hasBraceLine out then
      match parsed with
      | some d => d
      | none => { success := some (rc == 0), stdout := some out, stderr := some err }
    else { success := some (rc == 0), stdout := some out, stderr := some err }

/-- Observable side effects of run_scraper: the dry-run print and the
launch of a scraper subprocess (which is where all browser navigation and
network traffic of a run happens). -/
inductive Effect where
  | printWouldRun (line : String)
  | launch (cmd : List String)
deriving DecidableEq

/-- Python ' '.join. -/
def joinSpace : List String → String
  | [] => ""
  | [s] => s
  | s :: rest => s ++ " " ++ joinSpace rest

/-- The command line run_scraper builds for one scraper invocation:
--json always, --callback only for a Python-truthy (nonempty) URL. -/
def cmdFor (script : String) (argRest : List String) (callbackUrl : Option String) :
    List String :=
  ["python3", script] ++ argRest ++ ["--json"] ++
    (match callbackUrl with
     | some u => if u = "" then [] else ["--callback", u]
     | none => [])

/-- Shallow embedding of run_scraper (scripts/sync_all_taxes.py): the
result dictionary and the observable effects of one property. -/
def run_scraper (script : String) (argRest : List String)
    (callbackUrl : Option String) (dryRun : Bool) (outcome : SubprocOutcome) :
    ScrapeDict × List Effect :=
  let cmd := cmdFor script argRest callbackUrl
  if dryRun then
    ({ success := some true, dry_run := some true },
     [Effect.printWouldRun ("  [DRY RUN] Would run: " ++ joinSpace cmd)])
  else (subprocResult outcome, [Effect.launch cmd])

/-- One configured property of the roster. -/
structure PropCfg where
  pname : String
  script : String
  argRest : List String
deriving DecidableEq

/-- The PROPERTIES roster of sync_all_taxes.py, in insertion order. -/
def PROPERTIES : List (String × List PropCfg) :=
  [("santa_clara_county",
    [⟨"125 Dana Avenue, San Jose", "scripts/lookup_scc_tax.py", []⟩]),
   ("city_hall_systems",
    [⟨"88 Williams St, Providence", "scripts/lookup_providence_tax.py",
      ["--address", "88 Williams"]⟩]),
   ("vermont_nemrc",
    [⟨"2055 Sunset Lake Rd, Dummerston (Main House)", "scripts/lookup_vermont_tax.py",
      ["--address", "2055 Sunset Lake"]⟩,
     ⟨"1910 Sunset Lake Rd, Dummerston (Booth House)", "scripts/lookup_vermont_tax.py",
      ["--address", "1910 Sunset Lake"]⟩,
     ⟨"2001 Sunset Lake Rd, Dummerston (Guest House)", "scripts/lookup_vermont_tax.py",
      ["--address", "2001 Sunset Lake"]⟩])]

/-- Provider filter of main: a property group is kept when the filter is
absent or Python-falsy (empty string) or equal to the provider tag. -/
def keepProvider (pf : Option String) (provider : String) : Bool :=
  match pf with
  | none => true
  | some f => if f = "" then true else provider = f

/-- The provider-filtered flat property list with provider tags. -/
def filteredProps (pf : Option String) : List (String × PropCfg) :=
  (PROPERTIES.map (fun g =>
    if keepProvider pf g.1 then g.2.map (fun p => (g.1, p)) else [])).flatten

/-- One per-property outcome row appended by main to the run record. -/
structure Outcome where
  oname : String
  provider : String
  osuccess : Bool
  data : ScrapeDict
deriving DecidableEq

/-- The per-property loop of main: one run_scraper call per configured
property, in order; subprocess behaviors are indexed by invocation order
starting at i. -/
def runProps : List (String × PropCfg) → Nat → (Nat → SubprocOutcome) →
    Option String → Bool → List Outcome × List Effect
  | [], _, _, _, _ => ([], [])
  | (prov, p) :: rest, i, behave, cb, dry =>
    let r := run_scraper p.script p.argRest cb dry (behave i)
    let done := runProps rest (i + 1) behave cb dry
    (⟨p.pname, prov, r.1.success.getD false, r.1⟩ :: done.1, r.2 ++ done.2)

/-- Shallow embedding of main (scripts/sync_all_taxes.py): the recorded
per-property outcomes and the effects of one orchestrator run. -/
def sync_main (cb : Option String) (dryRun : Bool) (pf : Option String)
    (behave : Nat → SubprocOutcome) : List Outcome × List Effect :=
  runProps (filteredProps pf) 0 behave cb dryRun

/-- Outcome of one urllib.request.urlopen POST: a response object (urllib
raises HTTPError on non-2xx statuses, so a response in the wild carries a
2xx status, though the model allows any), or an exception (unreachable
endpoint, HTTPError). -/
inductive DeliveryOutcome where
  | responded (status : Nat) (body : String)
  | failedConn (msg : String)
deriving DecidableEq

/-- A delivery attempt that fails: an exception (unreachable endpoint or
HTTPError for a non-2xx answer) or an answer other than plain 200. -/
def DeliveryFailed : DeliveryOutcome → Prop
  | .responded s _ => s ≠ 200
  | .failedConn _ => True

/-- Shallow embedding of the Providence post_to_callback
(scripts/lookup_providence_tax.py): the return value given the POST
outcome. The payload is built from the result dictionary without mutating
it; every exception is caught, logged and turned into False. -/
def prov_post_to_callback (_data : ProvResult) (oc : DeliveryOutcome) : Bool :=
  match oc with
  | .responded s _ => s == 200
  | .failedConn _ => false

/-- Shallow embedding of the Vermont post_to_callback
(scripts/lookup_vermont_tax.py): same catch-and-return-False shape. -/
def vt_post_to_callback (_data : NemrcResult) (_town : String)
    (oc : DeliveryOutcome) : Bool :=
  match oc with
  | .responded s _ => s == 200
  | .failedConn _ => false

/-- One line or block on the adapter standard output. The human-readable
summary block of the non-JSON branch is one atomic element (its exact
lines bear on no verified property); json.dumps output is the jsonDoc
element carrying the dumped result. -/
inductive OutLine where
  | narr (s : String)
  | jsonDoc (r : ProvResult)
  | summaryBlock (r : ProvResult)
deriving DecidableEq

/-- Browser session outcomes for the Providence adapter: the navigation
succeeds and the results page text is read (with no PDF link offered), or
an exception interrupts the run at the first navigation step. -/
inductive ProvSession where
  | found (bodyText : String)
  | navError (msg : String)
deriving DecidableEq

/-- Shallow embedding of lookup_providence_tax
(scripts/lookup_providence_tax.py): the result and the stdout lines it
prints. The progress narration is printed unconditionally, before any
output mode is consulted; every exception — a navigation error or the
IndexError the parser itself can raise — lands in the same handler,
which keeps the initial dictionary (no tax_year key) plus str(e) and
prints nothing further, so the screenshot-saved line is absent on the
parser-raise path. -/
def lookup_providence_tax (session : ProvSession) (address : String)
    (currentYear : Nat) : ProvResult × List OutLine :=
  match session with
  | .found bodyText =>
    match parse_providence_results bodyText address currentYear with
    | Except.ok r =>
      (r,
       [OutLine.narr "[Providence Tax] Navigating to https://epay.cityhallsystems.com...",
        OutLine.narr "[Providence Tax] Selecting Providence, RI...",
        OutLine.narr "[Providence Tax] Clicking View/Pay bills...",
        OutLine.narr "[Providence Tax] Selecting Real Estate...",
        OutLine.narr ("[Providence Tax] Searching for: " ++ address),
        OutLine.narr "[Providence Tax] Screenshot saved to /tmp/providence_tax_result.png"])
    | Except.error e =>
      ({ address := address, error := some e },
       [OutLine.narr "[Providence Tax] Navigating to https://epay.cityhallsystems.com...",
        OutLine.narr "[Providence Tax] Selecting Providence, RI...",
        OutLine.narr "[Providence Tax] Clicking View/Pay bills...",
        OutLine.narr "[Providence Tax] Selecting Real Estate...",
        OutLine.narr ("[Providence Tax] Searching for: " ++ address)])
  | .navError msg =>
    ({ address := address, error := some msg },
     [OutLine.narr "[Providence Tax] Navigating to https://epay.cityhallsystems.com..."])

/-- The stdout lines of the callback phase of the Providence main: the
posting announcement, then the response narration of post_to_callback on
success or the caught-failure narration. -/
def provCallbackLines : Option (String × DeliveryOutcome) → List OutLine
  | none => []
  | some (u, DeliveryOutcome.responded s b) =>
    [OutLine.narr ("[Providence Tax] Posting to callback: " ++ u),
     OutLine.narr ("[Providence Tax] Callback response: " ++ toString s),
     OutLine.narr ("[Providence Tax] Response: " ++ b)]
  | some (u, DeliveryOutcome.failedConn m) =>
    [OutLine.narr ("[Providence Tax] Posting to callback: " ++ u),
     OutLine.narr ("[Providence Tax] Callback failed: " ++ m)]

/-- Shallow embedding of the Providence main: runs the lookup, prints
either the JSON document alone or the human-readable summary block, then
posts to the callback when one is configured. callback stands for a
Python-truthy --callback argument (an absent or empty URL is none).
Returns the result, the stdout lines, and the delivery flag (none when no
callback). -/
def providence_main (session : ProvSession) (address : String) (jsonFlag : Bool)
    (callback : Option (String × DeliveryOutcome)) (currentYear : Nat) :
    ProvResult × List OutLine × Option Bool :=
  let lr := lookup_providence_tax session address currentYear
  let outMode := if jsonFlag then [OutLine.jsonDoc lr.1] else [OutLine.summaryBlock lr.1]
  (lr.1, lr.2 ++ outMode ++ provCallbackLines callback,
   callback.map (fun c => prov_post_to_callback lr.1 c.2))

/-- Outcome of the validation request of test_token_validity. -/
inductive HttpAttempt where
  | responded (status : Nat)
  | raisedExc (msg : String)
deriving DecidableEq

/-- Shallow embedding of test_token_validity
(scripts/nest-auto-refresh-token.py): 200 and 404 mean valid, 401 and 403
mean invalid, every other status is assumed valid, and an exception
during the request is likewise assumed valid. -/
def test_token_validity : HttpAttempt → Bool
  | .responded s =>
    if s ∈ [200, 404] then true
    else if s ∈ [401, 403] then false
    else true
  | .raisedExc _ => true

/-- Concrete successful parses discharging the hypotheses of the C1
invariant. -/
def nemrcC1res : NemrcResult :=
  (parse_nemrc_property "SPAN: 123-456-78901" "2055 Sunset Lake").toOption.getD
    { address := "" }

/-- Concrete schedules discharging the hypotheses of the C2 sum law. -/
def nemrcC2res : NemrcResult :=
  (parse_nemrc_property "Tax: 100.00 SPAN: 222-333-44444" "1910 Sunset Lake").toOption.getD
    { address := "" }

/-- Concrete schedules discharging the hypotheses of the C3 numbering law. -/
def nemrcC3res : NemrcResult :=
  (parse_nemrc_property "Tax: 50.00 SPAN: 333-444-55555" "2001 Sunset Lake").toOption.getD
    { address := "" }

/-- Concrete returned Providence parses discharging the returned-result
hypotheses of the claim invariants. -/
def provC1res : ProvResult :=
  (parse_providence_results "row 840-0160-2301 x" "88 Williams" 2026).toOption.getD
    { address := "" }

def provC2res : ProvResult :=
  (parse_providence_results "Due 07/24/2025: $ 10.00 row 840-0160-2303"
    "88 Williams" 2026).toOption.getD { address := "" }

def provC3res : ProvResult :=
  (parse_providence_results "Due 10/24/2025: $ 25.00 row 840-0160-2308"
    "88 Williams" 2026).toOption.getD { address := "" }

def provC8res : ProvResult :=
  (parse_providence_results "2025 TAX ROLL 840-0160-2307" "88 Williams" 2026).toOption.getD
    { address := "" }

def provC10res : ProvResult :=
  (parse_providence_results "x 840-0160-2300 x" "88 Williams" 2026).toOption.getD
    { address := "" }

def provC10balRes : ProvResult :=
  (parse_providence_results "Due 07/24/2025: $ 1,234.56 Full Balance: $ 4,938.24"
    "88 Williams" 2026).toOption.getD { address := "" }

/-- One forced timeout on the third roster slot, the other four scrapers
completing with a parsed JSON result. -/
def behaveC4 : Nat → SubprocOutcome := fun j =>
  if j = 2 then SubprocOutcome.timedOut
  else SubprocOutcome.completed 0 "\x7b\x7d" "" (some { success := some true })

/-- launch effects are the subprocess launches; everything else is a
plain print. -/
def Effect.isLaunch : Effect → Bool
  | .launch _ => true
  | _ => false

/-- jsonDoc elements on stdout. -/
def OutLine.isJson : OutLine → Bool
  | .jsonDoc _ => true
  | _ => false

/-- summaryBlock elements on stdout. -/
def OutLine.isSummary : OutLine → Bool
  | .summaryBlock _ => true
  | _ => false

/-- narration elements on stdout. -/
def OutLine.isNarr : OutLine → Bool
  | .narr _ => true
  | _ => false

theorem Money.den_ne (a : Money) : ((a.den : ℕ) : ℚ) ≠ 0 := by
  exact_mod_cast a.den.ne_zero

theorem Money.toRat_add (a b : Money) : (a.add b).toRat = a.toRat + b.toRat := by
  unfold Money.add Money.toRat
  push_cast
  rw [div_add_div _ _ (Money.den_ne a) (Money.den_ne b)]
  ring_nf

theorem Money.toRat_divN (a : Money) (n : ℕ+) :
    (a.divN n).toRat = a.toRat / ((n : ℕ) : ℚ) := by
  unfold Money.divN Money.toRat
  push_cast
  rw [div_div]

theorem Money.toRat_mulN (a : Money) (k : Nat) :
    (a.mulN k).toRat = a.toRat * (k : ℚ) := by
  unfold Money.mulN Money.toRat
  push_cast
  ring

theorem Money.isZero_false_iff (a : Money) : a.isZero = false ↔ a.toRat ≠ 0 := by
  unfold Money.isZero Money.toRat
  rw [div_ne_zero_iff]
  simp [Money.den_ne a]

example :
    (parse_providence_results "row 123-4567-8901 here" "88 Williams" 2026).map
      ProvResult.success = Except.ok true := by decide

example :
    (parse_providence_results "Due 07/24/2025: $ 1,234.56 and Full Balance: $ 4,938.24"
      "88 Williams" 2026).map ProvResult.success = Except.ok false := by decide

example :
    (parse_providence_results "Due 07/24/2025: $ 1,234.56 x" "a" 2026).map
      ProvResult.annual_tax = Except.ok (some ⟨493824, ⟨100, by norm_num⟩⟩) := by decide

example :
    (parse_providence_results "Due 07/24/2025: $ 1,234.56 x" "a" 2026).map
      (fun r => r.installments.length) = Except.ok 4 := by decide

example :
    (parse_providence_results "2025 TAX ROLL" "a" 2026).map ProvResult.tax_year
      = Except.ok (some 2025) := by decide

example :
    (parse_providence_results "fy2025 TAX ROLL" "a" 2026).map ProvResult.tax_year
      = Except.ok (some 2026) := by decide

example :
    (parse_providence_results "2025\nTAX ROLL" "a" 2026).map ProvResult.tax_year
      = Except.ok (some 2026) := by decide

example :
    (parse_providence_results "2025\nTAX ROLL" "a" 2026).map ProvResult.owner
      = Except.ok (some "TAX ROLL") := by decide

example :
    (parse_providence_results "2023 45 SMITH JOHN 123-4567 t" "a" 2026).map
      ProvResult.owner = Except.ok (some "SMITH JOHN") := by decide

example :
    (parse_providence_results "JOHN SMITH" "a" 2026)
      = Except.error "list index out of range" := by decide

example :
    (parse_providence_results "SPALTERX\nno digits here" "a" 2026).map
      ProvResult.owner = Except.ok none := by decide

example :
    (parse_nemrc_property "SPAN: 123-456-78901" "2055 Sunset Lake").map NemrcResult.success
      = Except.ok true := by decide

example :
    (parse_nemrc_property "nothing here" "2055 Sunset Lake").map NemrcResult.success
      = Except.ok false := by decide

example :
    (parse_nemrc_property "Total: $0" "a").map NemrcResult.success
      = Except.ok false := by decide

example :
    (parse_nemrc_property "Total: $120,400" "a").map NemrcResult.success
      = Except.ok true := by decide

example :
    (parse_nemrc_property "Total: ,," "a") = Except.error
      "ValueError: could not convert string to float" := by decide

example :
    (parse_nemrc_property "Tax: 4,321.10 Parcel ID: AB-12" "a").map
      NemrcResult.installments
      = Except.ok
          [⟨1, ⟨432110, ⟨200, by norm_num⟩⟩, "08/15", "unknown"⟩,
           ⟨2, ⟨432110, ⟨200, by norm_num⟩⟩, "02/15", "unknown"⟩] := by decide

example :
    (parse_tax_data sccTwoYearText).tax_years.map SccYear.tax_year
      = ["2024/2025", "2025/2026"] := by decide

example :
    (flattenInstallments (parse_tax_data sccTwoYearText)).map CbInst.installment_number
      = [1, 2, 1, 2] := by decide

example :
    (scc_payload (parse_tax_data sccTwoYearText) 2026).annual_tax
      = ⟨2000000, ⟨10000, by norm_num⟩⟩ := by decide

example :
    (scc_payload (parse_tax_data sccTwoYearText) 2026).tax_year = 2024 := by decide

example : (filteredProps none).length = 5 := by decide

example : (filteredProps (some "vermont_nemrc")).length = 3 := by decide

example : (filteredProps (some "")).length = 5 := by decide

example :
    (sync_main none true none (fun _ => SubprocOutcome.timedOut)).2.length = 5 := by
  decide

example : test_token_validity (HttpAttempt.responded 500) = true := by decide

example : test_token_validity (HttpAttempt.responded 403) = false := by decide

example : test_token_validity (HttpAttempt.raisedExc "timeout") = true := by decide

example :
    (parse_providence_results "x 2024-TAX here" "a" 2026).map ProvResult.tax_year
      = Except.ok (some 2024) := by decide

example :
    (parse_providence_results "2024TAX" "a" 2026).map ProvResult.tax_year
      = Except.ok (some 2026) := by decide

example :
    (parse_nemrc_property "Building s 5 Parcel ID: AB-1" "a").map
      NemrcResult.building_value = Except.ok none := by decide

example :
    (parse_nemrc_property "Buildings 5 Parcel ID: AB-1" "a").map
      NemrcResult.building_value
      = Except.ok (some ⟨5, ⟨1, by norm_num⟩⟩) := by decide

example :
    (parse_nemrc_property "parcel id: ab-12x" "a").map NemrcResult.parcel_id
      = Except.ok (some "ab-12x") := by decide

example :
    (parse_nemrc_property "Tax: $," "a")
      = Except.error "ValueError: could not convert string to float" := by decide

example :
    (parse_providence_results "Due 07/24/2025: $ ,.56 z 840-0160-2306 z" "a"
      2026).map ProvResult.next_due_amount
      = Except.ok (some ⟨56, ⟨100, by norm_num⟩⟩) := by decide

/-- Correctness of the leftmost search: it finds a match exactly when some
suffix of the text matches the pattern. -/
theorem searchFirst_isSome_iff {α : Type} (m : List Char → Option α) (cs : List Char) :
    (searchFirst m cs).isSome = true ↔
      ∃ suf, suf <:+ cs ∧ (m suf).isSome = true := by
  induction cs with
  | nil =>
    constructor
    · intro h
      exact ⟨[], List.suffix_refl [], by simpa [searchFirst] using h⟩
    · rintro ⟨suf, hs, hm⟩
      have hse : suf = [] := List.suffix_nil.mp hs
      subst hse
      simpa [searchFirst] using hm
  | cons c cs ih =>
    constructor
    · intro h
      cases hm : m (c :: cs) with
      | some a => exact ⟨c :: cs, List.suffix_refl _, by simp [hm]⟩
      | none =>
        rw [searchFirst, hm] at h
        obtain ⟨suf, hs, hmm⟩ := ih.mp h
        exact ⟨suf, hs.trans (List.suffix_cons c cs), hmm⟩
    · rintro ⟨suf, hs, hmm⟩
      rw [searchFirst]
      cases hm : m (c :: cs) with
      | some a => simp
      | none =>
        rcases List.suffix_cons_iff.mp hs with hs1 | hs1
        · subst hs1
          rw [hm] at hmm
          simp at hmm
        · exact ih.mpr ⟨suf, hs1, hmm⟩

/-- A returned Providence parse is the pure assembly over whatever owner
value the effectful owner stage produced. -/
theorem parse_providence_ok (text addr : String) (y : Nat) (r : ProvResult)
    (h : parse_providence_results text addr y = Except.ok r) :
    ∃ ow, provOwner text.data (provLines text) = Except.ok ow ∧
      r = provAssemble text addr y ow := by
  cases how : provOwner text.data (provLines text) with
  | error e => simp [parse_providence_results, how, Except.map] at h
  | ok ow =>
    simp only [parse_providence_results, how, Except.map, Except.ok.injEq] at h
    exact ⟨ow, rfl, h.symm⟩

/-- The observable fields of an assembled Providence result, by case
analysis on the scanners. -/
theorem provAssemble_fields (text addr : String) (y : Nat) (ow : Option String) :
    (provAssemble text addr y ow).success
        = (searchFirst parcelProvAt text.data).isSome ∧
    (provAssemble text addr y ow).parcel_number
        = searchFirst parcelProvAt text.data ∧
    (provAssemble text addr y ow).full_balance = none ∧
    (provAssemble text addr y ow).tax_year
        = some ((searchBound yearTaxAt none text.data).getD y) ∧
    (provAssemble text addr y ow).note = none := by
  rcases hdue : searchFirst dueAt text.data with _ | ⟨dd, q⟩
  · by_cases hp : (searchFirst parcelProvAt text.data).isSome = true <;>
      simp [provAssemble, hdue, hp]
  · cases hz : q.isZero <;>
      by_cases hp : (searchFirst parcelProvAt text.data).isSome = true <;>
        simp [provAssemble, hdue, hz, hp]

/-- The observable fields of a Vermont NEMRC parse result that returned
normally, by case analysis on the scanners and the float conversions. -/
theorem nemrc_parse_ok (text addr : String) (r : NemrcResult)
    (h : parse_nemrc_property text addr = Except.ok r) :
    r.success = ((searchFirst spanAt text.data).isSome ||
      (searchFirst parcelIdAt text.data).isSome ||
      moneyTruthy r.total_assessed_value) ∧
    r.span_number = searchFirst spanAt text.data ∧
    r.parcel_id = searchFirst parcelIdAt text.data ∧
    (r.installments = [] ∨ ∃ t, r.annual_tax = some t ∧
      r.installments =
        [⟨1, t.divN 2, "08/15", "unknown"⟩, ⟨2, t.divN 2, "02/15", "unknown"⟩]) := by
  cases hl : capToMoney (searchFirst landAt text.data) with
  | error e => simp [parse_nemrc_property, hl, bind, Except.bind] at h
  | ok land =>
  cases hb : capToMoney (searchFirst buildingAt text.data) with
  | error e => simp [parse_nemrc_property, hl, hb, bind, Except.bind] at h
  | ok bldg =>
  cases htot : capToMoney (searchFirst totalAt text.data) with
  | error e => simp [parse_nemrc_property, hl, hb, htot, bind, Except.bind] at h
  | ok total =>
  cases htax : capToMoney (searchFirst taxAt text.data) with
  | error e => simp [parse_nemrc_property, hl, hb, htot, htax, bind, Except.bind] at h
  | ok tax =>
    simp only [parse_nemrc_property, hl, hb, htot, htax, bind, Except.bind,
      Except.ok.injEq] at h
    subst h
    cases tax with
    | none => simp
    | some t => exact ⟨rfl, rfl, rfl, Or.inr ⟨t, rfl, rfl⟩⟩

/-- C9: test_token_validity treats the token as valid (returns True) for
every HTTP status other than 401 and 403 — unrecognized statuses included
— and whenever the validation request raises; it returns False exactly on
status 401 or 403. -/
theorem C9_token_validity_false_iff (a : HttpAttempt) :
    test_token_validity a = false ↔
      (a = HttpAttempt.responded 401 ∨ a = HttpAttempt.responded 403) := by
  cases a with
  | raisedExc m => simp [test_token_validity]
  | responded s =>
    constructor
    · intro h
      rw [test_token_validity] at h
      split_ifs at h with h1 h2
      simp at h2
      rcases h2 with rfl | rfl
      · exact Or.inl rfl
      · exact Or.inr rfl
    · rintro (h | h) <;> (injection h with h; subst h; decide)

/-- C10 counterexample: the claim fails as stated — a page text holding a
parcel-number match need not yield any returned result: with the parcel
on the first line, a digit-free second line and an owner-candidate final
line, the owner fallback loop reads past the end of the line list and
parse_providence_results raises IndexError instead of returning a
success=true result. -/
theorem C10_counterexample :
    parse_providence_results "123-4567-8901\nFOO\nJOHN SMITH" "88 Williams" 2026
      = Except.error "list index out of range" ∧
    ∃ suf, suf <:+ ("123-4567-8901\nFOO\nJOHN SMITH".data) ∧
      (parcelProvAt suf).isSome = true :=
  ⟨by decide,
   (searchFirst_isSome_iff parcelProvAt ("123-4567-8901\nFOO\nJOHN SMITH".data)).mp
     (by decide)⟩

/-- C10 amended: whenever parse_providence_results returns a result — the
owner fallback loop can instead raise IndexError when an owner-candidate
line closes the page and its predecessor holds no digit — that result has
success true exactly when the page text contains a parcel-number
substring of shape ddd-dddd-dddd. The alternative success condition reads
the full_balance key, which no code path writes (the parsed balance is
stored under remaining_balance), so a returned page with balance and due
amounts but no parcel match yields failure. -/
theorem C10_providence_success_iff_parcel (text addr : String) (y : Nat)
    (r : ProvResult) (h : parse_providence_results text addr y = Except.ok r) :
    (r.success = true ↔
      ∃ suf, suf <:+ text.data ∧ (parcelProvAt suf).isSome = true) ∧
    r.full_balance = none := by
  obtain ⟨ow, _, hr⟩ := parse_providence_ok text addr y r h
  obtain ⟨hs, _, hfb, _, _⟩ := provAssemble_fields text addr y ow
  subst hr
  exact ⟨by rw [hs, searchFirst_isSome_iff], hfb⟩

/-- C10 demonstration at concrete returned pages: balance and due amounts
parse into a failure that stores the balance under remaining_balance with
full_balance absent, and a parcel-bearing page satisfies the equivalence. -/
theorem C10_providence_success_iff_parcel_witness :
    (provC10balRes.success = false ∧ provC10balRes.remaining_balance.isSome = true ∧
      provC10balRes.full_balance = none) ∧
    ((provC10res.success = true ↔
        ∃ suf, suf <:+ ("x 840-0160-2300 x".data) ∧ (parcelProvAt suf).isSome = true) ∧
      provC10res.full_balance = none) :=
  ⟨⟨by decide, by decide, by decide⟩,
   C10_providence_success_iff_parcel "x 840-0160-2300 x" "88 Williams" 2026 provC10res
     (by decide)⟩

/-- C1: a parser result returned with success true always carries at least
one identifying data field — SPAN, parcel id or assessed total for the
Vermont NEMRC parser; the parcel number for the Providence parser. -/
theorem C1_success_implies_data :
    (∀ text addr r, parse_nemrc_property text addr = Except.ok r →
      r.success = true →
        (r.span_number.isSome = true ∨ r.parcel_id.isSome = true ∨
          r.total_assessed_value.isSome = true)) ∧
    (∀ text addr y r, parse_providence_results text addr y = Except.ok r →
      r.success = true → r.parcel_number.isSome = true) := by
  constructor
  · intro text addr r h hs
    obtain ⟨hsucc, hspan, hpid, _⟩ := nemrc_parse_ok text addr r h
    rw [hsucc] at hs
    rcases Bool.or_eq_true_iff.mp hs with h1 | h2
    · rcases Bool.or_eq_true_iff.mp h1 with h1a | h1b
      · exact Or.inl (by rw [hspan]; exact h1a)
      · exact Or.inr (Or.inl (by rw [hpid]; exact h1b))
    · right; right
      cases htv : r.total_assessed_value with
      | none => rw [htv] at h2; simp [moneyTruthy] at h2
      | some v => simp
  · intro text addr y r h hs
    obtain ⟨ow, _, hr⟩ := parse_providence_ok text addr y r h
    obtain ⟨hsucc, hpn, _, _, _⟩ := provAssemble_fields text addr y ow
    subst hr
    rw [hpn]
    rw [hsucc] at hs
    exact hs

theorem C1_success_implies_data_witness :
    (nemrcC1res.success = true ∧
      (nemrcC1res.span_number.isSome = true ∨ nemrcC1res.parcel_id.isSome = true ∨
        nemrcC1res.total_assessed_value.isSome = true)) ∧
    (provC1res.success = true ∧ provC1res.parcel_number.isSome = true) :=
  ⟨⟨by decide,
    C1_success_implies_data.1 "SPAN: 123-456-78901" "2055 Sunset Lake" nemrcC1res
      (by decide) (by decide)⟩,
   ⟨by decide,
    C1_success_implies_data.2 "row 840-0160-2301 x" "88 Williams" 2026 provC1res
      (by decide) (by decide)⟩⟩

/-- C8 counterexample: a Providence page with a parcel number but no
tax-year text yields a successful record whose tax_year silently defaults
to the current calendar year with no note at all — the explicit
unverified note required by the claim does not exist in any result. -/
theorem C8_counterexample :
    (parse_providence_results "x 840-0160-2302 x" "88 Williams" 2026).map
        ProvResult.success = Except.ok true ∧
    searchBound yearTaxAt none ("x 840-0160-2302 x".data) = none ∧
    (parse_providence_results "x 840-0160-2302 x" "88 Williams" 2026).map
        ProvResult.tax_year = Except.ok (some 2026) ∧
    (parse_providence_results "x 840-0160-2302 x" "88 Williams" 2026).map
        ProvResult.note = Except.ok none := by
  decide

/-- C8 amended: the Providence parser takes the tax year from explicit
year-before-TAX page text when present and otherwise defaults to the
current calendar year, but no unverified note is attached in either case;
the Vermont callback payload stamps the current calendar year
unconditionally, whatever the page said. -/
theorem C8_tax_year_resolution :
    (∀ text addr y r, parse_providence_results text addr y = Except.ok r →
      r.tax_year = some ((searchBound yearTaxAt none text.data).getD y) ∧
      r.note = none) ∧
    (∀ d town y, (vermontPayload d town y).tax_year = y) := by
  constructor
  · intro text addr y r h
    obtain ⟨ow, _, hr⟩ := parse_providence_ok text addr y r h
    obtain ⟨_, _, _, hty, hnote⟩ := provAssemble_fields text addr y ow
    subst hr
    exact ⟨hty, hnote⟩
  · intro d town y
    rfl

theorem C8_tax_year_resolution_witness :
    (parse_providence_results "2025 TAX ROLL 840-0160-2307" "88 Williams" 2026
        = Except.ok provC8res) ∧
    (provC8res.tax_year = some ((searchBound yearTaxAt none
        ("2025 TAX ROLL 840-0160-2307".data)).getD 2026) ∧
      provC8res.note = none) :=
  ⟨by decide,
   C8_tax_year_resolution.1 "2025 TAX ROLL 840-0160-2307" "88 Williams" 2026 provC8res
     (by decide)⟩

/-- The installment schedule of an assembled Providence result: either
absent together with annual_tax, or the four-way split of a nonzero
quarterly amount with numbers 1 to 4 and annual_tax four times the
quarterly. -/
theorem provAssemble_installments (text addr : String) (y : Nat) (ow : Option String) :
    ((provAssemble text addr y ow).installments = [] ∧
      (provAssemble text addr y ow).annual_tax = none) ∨
    (∃ q, (provAssemble text addr y ow).annual_tax = some (q.mulN 4) ∧
      (provAssemble text addr y ow).installments.map Installment.amount
        = [q, q, q, q] ∧
      (provAssemble text addr y ow).installments.map Installment.number
        = [1, 2, 3, 4]) := by
  rcases hdue : searchFirst dueAt text.data with _ | ⟨dd, q⟩
  · left
    by_cases hp : (searchFirst parcelProvAt text.data).isSome = true <;>
      simp [provAssemble, hdue, hp]
  · cases hz : q.isZero with
    | true =>
      left
      by_cases hp : (searchFirst parcelProvAt text.data).isSome = true <;>
        simp [provAssemble, hdue, hz, hp]
    | false =>
      right
      refine ⟨q, ?_⟩
      by_cases hp : (searchFirst parcelProvAt text.data).isSome = true <;>
        simp [provAssemble, hdue, hz, hp]

/-- C2 counterexample: on a Santa Clara page carrying two annual tax
bills, the callback payload computes annual_tax from only the first two
flattened installments (200 dollars) while the installments it sends sum
to 600 dollars — a 400-dollar gap, far beyond currency rounding. -/
theorem C2_counterexample :
    ((scc_payload (parse_tax_data sccTwoYearText) 2026).annual_tax.toRat = 200) ∧
    (sumRat ((scc_payload (parse_tax_data sccTwoYearText) 2026).installments.map
      (fun i => i.amount.getD ⟨0, 1⟩)) = 600) ∧
    (sumRat ((scc_payload (parse_tax_data sccTwoYearText) 2026).installments.map
      (fun i => i.amount.getD ⟨0, 1⟩))
      ≠ (scc_payload (parse_tax_data sccTwoYearText) 2026).annual_tax.toRat) := by
  have hann : (scc_payload (parse_tax_data sccTwoYearText) 2026).annual_tax
      = ⟨2000000, ⟨10000, by norm_num⟩⟩ := by decide
  have hmap : ((scc_payload (parse_tax_data sccTwoYearText) 2026).installments.map
      (fun i => i.amount.getD ⟨0, 1⟩))
      = [⟨10000, ⟨100, by norm_num⟩⟩, ⟨10000, ⟨100, by norm_num⟩⟩,
         ⟨20000, ⟨100, by norm_num⟩⟩, ⟨20000, ⟨100, by norm_num⟩⟩] := by decide
  have h1 : (scc_payload (parse_tax_data sccTwoYearText) 2026).annual_tax.toRat = 200 := by
    rw [hann]
    show ((2000000 : ℤ) : ℚ) / ((10000 : ℕ) : ℚ) = 200
    norm_num
  have h2 : sumRat ((scc_payload (parse_tax_data sccTwoYearText) 2026).installments.map
      (fun i => i.amount.getD ⟨0, 1⟩)) = 600 := by
    rw [hmap]
    show ((10000 : ℤ) : ℚ) / ((100 : ℕ) : ℚ) +
        (((10000 : ℤ) : ℚ) / ((100 : ℕ) : ℚ) +
          (((20000 : ℤ) : ℚ) / ((100 : ℕ) : ℚ) +
            (((20000 : ℤ) : ℚ) / ((100 : ℕ) : ℚ) + 0))) = 600
    norm_num
  exact ⟨h1, h2, by rw [h1, h2]; norm_num⟩

/-- C2 amended: where a schedule and an annual total are both produced,
the Vermont two-way split and the Providence four-way split sum exactly to
annual_tax; the Santa Clara callback instead sets annual_tax to the sum of
only the first two flattened installments, so its full installment list
agrees with annual_tax only when it covers at most one tax year. -/
theorem C2_installments_sum :
    (∀ text addr r, parse_nemrc_property text addr = Except.ok r →
      r.installments ≠ [] →
      ∃ t, r.annual_tax = some t ∧
        sumRat (r.installments.map Installment.amount) = t.toRat) ∧
    (∀ text addr y r, parse_providence_results text addr y = Except.ok r →
      r.installments ≠ [] →
      ∃ t, r.annual_tax = some t ∧
        sumRat (r.installments.map Installment.amount) = t.toRat) ∧
    (∀ d y, (scc_payload d y).annual_tax
      = sumMoney (((flattenInstallments d).take 2).map
          (fun i => i.amount.getD ⟨0, 1⟩))) := by
  refine ⟨?_, ?_, ?_⟩
  · intro text addr r h hne
    obtain ⟨_, _, _, h4⟩ := nemrc_parse_ok text addr r h
    rcases h4 with h4 | ⟨t, hat, hil⟩
    · exact absurd h4 hne
    · refine ⟨t, hat, ?_⟩
      rw [hil]
      simp [sumRat, Money.toRat_divN]
  · intro text addr y r h hne
    obtain ⟨ow, _, hr⟩ := parse_providence_ok text addr y r h
    subst hr
    rcases provAssemble_installments text addr y ow with ⟨hil, _⟩ | ⟨q, hat, hamt, _⟩
    · exact absurd hil hne
    · refine ⟨q.mulN 4, hat, ?_⟩
      unfold sumRat
      rw [hamt]
      simp [Money.toRat_mulN]
      ring
  · intro d y
    rfl

theorem C2_installments_sum_witness :
    (nemrcC2res.installments ≠ [] ∧
      ∃ t, nemrcC2res.annual_tax = some t ∧
        sumRat (nemrcC2res.installments.map Installment.amount) = t.toRat) ∧
    ((parse_providence_results "Due 07/24/2025: $ 10.00 row 840-0160-2303"
        "88 Williams" 2026 = Except.ok provC2res) ∧
      provC2res.installments ≠ [] ∧
      ∃ t, provC2res.annual_tax = some t ∧
        sumRat (provC2res.installments.map Installment.amount) = t.toRat) :=
  ⟨⟨by decide,
    C2_installments_sum.1 "Tax: 100.00 SPAN: 222-333-44444" "1910 Sunset Lake"
      nemrcC2res (by decide) (by decide)⟩,
   ⟨by decide, by decide,
    C2_installments_sum.2.1 "Due 07/24/2025: $ 10.00 row 840-0160-2303"
      "88 Williams" 2026 provC2res (by decide) (by decide)⟩⟩

/-- C3 counterexample: the flattened Santa Clara callback list for a
two-year page numbers its installments 1,2,1,2 — not the strictly
increasing, gap-free 1..n the claim asserts for every produced record
with several installments. -/
theorem C3_counterexample :
    ((scc_payload (parse_tax_data sccTwoYearText) 2026).installments.map
        CbInst.installment_number = [1, 2, 1, 2]) ∧
    ((scc_payload (parse_tax_data sccTwoYearText) 2026).installments.map
        CbInst.installment_number
      ≠ List.range' 1
          (scc_payload (parse_tax_data sccTwoYearText) 2026).installments.length) := by
  exact ⟨by decide, by decide⟩

/-- C3 amended: the Vermont and Providence synthesized schedules number
their installments 1..n with no gaps; the flattened Santa Clara callback
list restarts at 1 for each tax year, so the global 1..n guarantee holds
only for those two jurisdictions. -/
theorem C3_installment_numbering :
    (∀ text addr r, parse_nemrc_property text addr = Except.ok r →
      r.installments.map Installment.number
        = List.range' 1 r.installments.length) ∧
    (∀ text addr y r, parse_providence_results text addr y = Except.ok r →
      r.installments.map Installment.number
        = List.range' 1 r.installments.length) := by
  constructor
  · intro text addr r h
    obtain ⟨_, _, _, h4⟩ := nemrc_parse_ok text addr r h
    rcases h4 with h4 | ⟨t, _, hil⟩
    · rw [h4]; rfl
    · rw [hil]; rfl
  · intro text addr y r h
    obtain ⟨ow, _, hr⟩ := parse_providence_ok text addr y r h
    subst hr
    rcases provAssemble_installments text addr y ow with ⟨hil, _⟩ | ⟨q, _, hamt, hnum⟩
    · rw [hil]; rfl
    · have hlen : (provAssemble text addr y ow).installments.length = 4 := by
        have hx := congrArg List.length hnum
        simpa using hx
      rw [hnum, hlen]
      rfl

theorem C3_installment_numbering_witness :
    ((parse_nemrc_property "Tax: 50.00 SPAN: 333-444-55555" "2001 Sunset Lake"
        = Except.ok nemrcC3res) ∧
      nemrcC3res.installments.map Installment.number
        = List.range' 1 nemrcC3res.installments.length) ∧
    ((parse_providence_results "Due 10/24/2025: $ 25.00 row 840-0160-2308"
        "88 Williams" 2026 = Except.ok provC3res) ∧
      provC3res.installments.map Installment.number
        = List.range' 1 provC3res.installments.length) :=
  ⟨⟨by decide,
    C3_installment_numbering.1 "Tax: 50.00 SPAN: 333-444-55555" "2001 Sunset Lake"
      nemrcC3res (by decide)⟩,
   ⟨by decide,
    C3_installment_numbering.2 "Due 10/24/2025: $ 25.00 row 840-0160-2308"
      "88 Williams" 2026 provC3res (by decide)⟩⟩

/-- The recorded outcome rows of a full five-property run: their data
dictionaries are the per-subprocess results in roster order. -/
theorem sync_main_data (behave : Nat → SubprocOutcome) :
    ((sync_main none false none behave).1.map Outcome.data
      = [subprocResult (behave 0), subprocResult (behave 1), subprocResult (behave 2),
         subprocResult (behave 3), subprocResult (behave 4)]) ∧
    ((sync_main none false none behave).1.map Outcome.oname
      = ["125 Dana Avenue, San Jose", "88 Williams St, Providence",
         "2055 Sunset Lake Rd, Dummerston (Main House)",
         "1910 Sunset Lake Rd, Dummerston (Booth House)",
         "2001 Sunset Lake Rd, Dummerston (Guest House)"]) := by
  constructor <;>
    simp [sync_main, filteredProps, PROPERTIES, keepProvider, runProps, run_scraper]

/-- C4: over the five configured properties, when exactly one scraper
subprocess hits the 120-second timeout and each other subprocess yields a
result other than the timeout dictionary, the run records five outcomes in
roster order, each carrying its own subprocess result; the timed-out slot
carries exactly the timeout error dictionary and is the only one. -/
theorem C4_timeout_isolation (behave : Nat → SubprocOutcome) (i : Nat) (hi : i < 5)
    (ht : behave i = SubprocOutcome.timedOut)
    (hoth : ∀ j, j < 5 → j ≠ i → subprocResult (behave j) ≠ timeoutDict) :
    ((sync_main none false none behave).1.length = 5) ∧
    ((sync_main none false none behave).1.map Outcome.data
      = [subprocResult (behave 0), subprocResult (behave 1), subprocResult (behave 2),
         subprocResult (behave 3), subprocResult (behave 4)]) ∧
    (((sync_main none false none behave).1.map Outcome.data).getD i timeoutDict
      = timeoutDict) ∧
    (((sync_main none false none behave).1.map Outcome.data).countP
      (fun d => d == timeoutDict) = 1) := by
  obtain ⟨hdata, hnames⟩ := sync_main_data behave
  have hlen : (sync_main none false none behave).1.length = 5 := by
    have hx := congrArg List.length hdata
    simpa using hx
  refine ⟨hlen, hdata, ?_, ?_⟩
  · rw [hdata]
    interval_cases i <;> simp [ht, subprocResult]
  · rw [hdata]
    have h0 := hoth 0
    have h1 := hoth 1
    have h2 := hoth 2
    have h3 := hoth 3
    have h4 := hoth 4
    interval_cases i <;>
      simp_all [List.countP_cons, beq_iff_eq, subprocResult]

theorem C4_timeout_isolation_witness :
    (2 < 5 ∧ behaveC4 2 = SubprocOutcome.timedOut) ∧
    (((sync_main none false none behaveC4).1.length = 5) ∧
      ((sync_main none false none behaveC4).1.map Outcome.data
        = [subprocResult (behaveC4 0), subprocResult (behaveC4 1),
           subprocResult (behaveC4 2), subprocResult (behaveC4 3),
           subprocResult (behaveC4 4)]) ∧
      (((sync_main none false none behaveC4).1.map Outcome.data).getD 2 timeoutDict
        = timeoutDict) ∧
      (((sync_main none false none behaveC4).1.map Outcome.data).countP
        (fun d => d == timeoutDict) = 1)) :=
  ⟨⟨by norm_num, by decide⟩,
   C4_timeout_isolation behaveC4 2 (by norm_num) (by decide)
     (by
       intro j hj hne
       interval_cases j
       · decide
       · decide
       · exact absurd rfl hne
       · decide
       · decide)⟩

/-- In dry-run mode the per-property loop prints one would-run line per
property, in order, and launches nothing. -/
theorem runProps_dry (props : List (String × PropCfg)) (i : Nat)
    (behave : Nat → SubprocOutcome) (cb : Option String) :
    ((runProps props i behave cb true).2
      = props.map (fun p => Effect.printWouldRun ("  [DRY RUN] Would run: " ++
          joinSpace (cmdFor p.2.script p.2.argRest cb)))) ∧
    (runProps props i behave cb true).1.length = props.length := by
  induction props generalizing i with
  | nil => simp [runProps]
  | cons hd tl ih =>
    cases hd with
    | mk prov p =>
      obtain ⟨ih1, ih2⟩ := ih (i + 1)
      simp [runProps, run_scraper, ih1, ih2]

/-- C7: with the dry-run flag, each provider-filtered configured property
produces exactly one printed would-run line, in roster order, and no
scraper subprocess is ever launched — and the subprocesses are the only
place browser navigation or network traffic happens in a run. -/
theorem C7_dry_run (cb pf : Option String) (behave : Nat → SubprocOutcome) :
    ((sync_main cb true pf behave).2
      = (filteredProps pf).map (fun p => Effect.printWouldRun ("  [DRY RUN] Would run: " ++
          joinSpace (cmdFor p.2.script p.2.argRest cb)))) ∧
    ((sync_main cb true pf behave).2.countP Effect.isLaunch = 0) ∧
    ((sync_main cb true pf behave).1.length = (filteredProps pf).length) := by
  obtain ⟨h1, h2⟩ := runProps_dry (filteredProps pf) 0 behave cb
  refine ⟨h1, ?_, h2⟩
  rw [show (sync_main cb true pf behave).2
      = (runProps (filteredProps pf) 0 behave cb true).2 from rfl, h1]
  simp [List.countP_map, Effect.isLaunch]

/-- C6 counterexample: with the JSON flag, a successful no-callback
Providence run still prints its six progress-narration lines before the
JSON document, for seven stdout lines in all — stdout is not exactly one
JSON object. -/
theorem C6_counterexample :
    ((providence_main (ProvSession.found "x 840-0160-2304 x") "88 Williams" true
        none 2026).2.1.length = 7) ∧
    ¬ ∃ r, (providence_main (ProvSession.found "x 840-0160-2304 x") "88 Williams" true
        none 2026).2.1 = [OutLine.jsonDoc r] := by
  have hlen : (providence_main (ProvSession.found "x 840-0160-2304 x") "88 Williams" true
      none 2026).2.1.length = 7 := by decide
  refine ⟨hlen, ?_⟩
  rintro ⟨r, hr⟩
  rw [hr] at hlen
  simp at hlen

/-- Every stdout line of the lookup phase is narration, and the phase
prints at least one line, on every session and parse outcome. -/
theorem lookup_narr (session : ProvSession) (address : String) (y : Nat) :
    (lookup_providence_tax session address y).2 ≠ [] ∧
    (lookup_providence_tax session address y).2.all OutLine.isNarr = true ∧
    (lookup_providence_tax session address y).2.countP OutLine.isJson = 0 ∧
    (lookup_providence_tax session address y).2.countP OutLine.isSummary = 0 := by
  cases session with
  | found bodyText =>
    cases hpr : parse_providence_results bodyText address y with
    | ok r =>
      simp [lookup_providence_tax, hpr, OutLine.isNarr, OutLine.isJson, OutLine.isSummary]
    | error e =>
      simp [lookup_providence_tax, hpr, OutLine.isNarr, OutLine.isJson, OutLine.isSummary]
  | navError msg =>
    simp [lookup_providence_tax, OutLine.isNarr, OutLine.isJson, OutLine.isSummary]

/-- Every stdout line of the callback phase is narration. -/
theorem cbLines_narr (callback : Option (String × DeliveryOutcome)) :
    (provCallbackLines callback).all OutLine.isNarr = true ∧
    (provCallbackLines callback).countP OutLine.isJson = 0 ∧
    (provCallbackLines callback).countP OutLine.isSummary = 0 := by
  rcases callback with _ | ⟨u, oc⟩
  · simp [provCallbackLines]
  · cases oc <;>
      simp [provCallbackLines, OutLine.isNarr, OutLine.isJson, OutLine.isSummary]

/-- C6 amended: with the JSON flag the human-readable summary block is
suppressed and exactly one JSON document is printed, but the scraping
narration still reaches stdout before it (and callback narration after
it): stdout is narration lines around a single JSON document, never the
JSON document alone. -/
theorem C6_json_mode (session : ProvSession) (address : String)
    (callback : Option (String × DeliveryOutcome)) (y : Nat) :
    ((providence_main session address true callback y).2.1
      = (lookup_providence_tax session address y).2
        ++ OutLine.jsonDoc (providence_main session address true callback y).1
        :: provCallbackLines callback) ∧
    ((lookup_providence_tax session address y).2 ≠ []) ∧
    ((lookup_providence_tax session address y).2.all OutLine.isNarr = true) ∧
    ((provCallbackLines callback).all OutLine.isNarr = true) ∧
    ((providence_main session address true callback y).2.1.countP OutLine.isJson = 1) ∧
    ((providence_main session address true callback y).2.1.countP OutLine.isSummary
      = 0) := by
  obtain ⟨hne, hnarr, hj, hs⟩ := lookup_narr session address y
  obtain ⟨hcn, hcj, hcs⟩ := cbLines_narr callback
  have hdec : (providence_main session address true callback y).2.1
      = (lookup_providence_tax session address y).2
        ++ OutLine.jsonDoc (providence_main session address true callback y).1
        :: provCallbackLines callback := by
    simp [providence_main]
  refine ⟨hdec, hne, hnarr, hcn, ?_, ?_⟩
  · rw [hdec, List.countP_append, List.countP_cons, hj, hcj]
    simp [OutLine.isJson]
  · rw [hdec, List.countP_append, List.countP_cons, hs, hcs]
    simp [OutLine.isSummary]

/-- C5: a failed callback POST — connection failure or any answer other
than plain 200 — is caught: both post_to_callback embeddings return False
and raise nothing, and the Providence main still returns exactly the
result (success flag included) of an identical run with no callback,
recording only the delivery flag false alongside it. -/
theorem C5_delivery_failure_isolated (oc : DeliveryOutcome)
    (hfail : DeliveryFailed oc) :
    (∀ data, prov_post_to_callback data oc = false) ∧
    (∀ data town, vt_post_to_callback data town oc = false) ∧
    (∀ session address jsonFlag u y,
      (providence_main session address jsonFlag (some (u, oc)) y).1
        = (providence_main session address jsonFlag none y).1 ∧
      (providence_main session address jsonFlag (some (u, oc)) y).2.2
        = some false) := by
  have hpost : ∀ data, prov_post_to_callback data oc = false := by
    intro data
    cases oc with
    | responded s b =>
      have hs : s ≠ 200 := hfail
      simp [prov_post_to_callback, hs]
    | failedConn m => rfl
  have hvt : ∀ (data : NemrcResult) (town : String),
      vt_post_to_callback data town oc = false := by
    intro data town
    cases oc with
    | responded s b =>
      have hs : s ≠ 200 := hfail
      simp [vt_post_to_callback, hs]
    | failedConn m => rfl
  refine ⟨hpost, hvt, ?_⟩
  intro session address jsonFlag u y
  exact ⟨rfl, by simp [providence_main, hpost]⟩

theorem C5_delivery_failure_isolated_witness :
    DeliveryFailed (DeliveryOutcome.failedConn "connection refused") ∧
    prov_post_to_callback { address := "88 Williams" }
      (DeliveryOutcome.failedConn "connection refused") = false ∧
    vt_post_to_callback { address := "2055 Sunset Lake" } "dummerston"
      (DeliveryOutcome.failedConn "connection refused") = false ∧
    (providence_main (ProvSession.found "x 840-0160-2305 x") "88 Williams" true
        (some ("http://localhost:3000/api/taxes/sync/callback",
          DeliveryOutcome.failedConn "connection refused")) 2026).2.2
      = some false :=
  ⟨by trivial,
   (C5_delivery_failure_isolated (DeliveryOutcome.failedConn "connection refused")
     (by trivial)).1 _,
   (C5_delivery_failure_isolated (DeliveryOutcome.failedConn "connection refused")
     (by trivial)).2.1 _ _,
   ((C5_delivery_failure_isolated (DeliveryOutcome.failedConn "connection refused")
     (by trivial)).2.2 (ProvSession.found "x 840-0160-2305 x")
     "88 Williams" true "http://localhost:3000/api/taxes/sync/callback" 2026).2⟩

end PropTax
